import Mathlib

/-!
Shallow embedding of the feed ingestion and normalization pipeline of
`src/streamlit_app.py` (JMA disaster-prevention XML viewer).

The embedded functions keep the source's names: `fetch_feed`,
`parse_warnings_advisories`, `transformed_data_for_db`.  External library
behavior is modelled at the boundary where the source calls it:

* `requests.get` is a `Net` oracle returning either response content or an
  error string (exceptions raised by `requests.get`/`raise_for_status`);
* `xml.etree.ElementTree` documents are `Xml` trees of local names (the
  source matches elements with the `{*}` wildcard namespace, so namespace
  URIs are dropped); `ET.fromstring` on detail bytes is modelled by
  `LinkedBytes` which records whether the bytes decode+parse to a tree,
  raise `ET.ParseError`, or raise some other exception;
* `datetime.fromisoformat` on a timestamp string is modelled by `TimeText`,
  which records the only facts the source's control flow depends on:
  whether the string ends in `"Z"`, whether the (rest of the) string
  parses, and whether the resulting datetime is timezone-aware or naive
  (Python raises `TypeError` when comparing naive with aware datetimes);
  instants are integers (seconds), `timedelta(hours=h)` is `h * 3600`.
-/

/-- An XML element: local name, text content (`None` or a string, as in
ElementTree's `.text`), and child elements in document order. -/
inductive Xml where
  | node (name : String) (text : Option String) (children : List Xml)

def Xml.name : Xml → String
  | .node n _ _ => n

def Xml.text : Xml → Option String
  | .node _ t _ => t

def Xml.children : Xml → List Xml
  | .node _ _ c => c

mutual

/-- All elements of a forest in document (pre-)order, each with its own
descendants. -/
def subtreesList : List Xml → List Xml
  | [] => []
  | x :: xs => subtrees x ++ subtreesList xs

/-- An element followed by all its descendants in document order. -/
def subtrees : Xml → List Xml
  | .node n t cs => Xml.node n t cs :: subtreesList cs

end

/-- Strict descendants of an element in document order: what ElementTree's
`.//` axis iterates over. -/
def descendants (x : Xml) : List Xml :=
  subtreesList x.children

/-- Children with a given local name, in document order. -/
def childNamed (n : String) (x : Xml) : List Xml :=
  x.children.filter (fun c => c.name = n)

/-- Descendants with a given local name, in document order:
`findall('.//{*}n')`. -/
def descNamed (n : String) (x : Xml) : List Xml :=
  (descendants x).filter (fun c => c.name = n)

/-- `root.find('.//{*}ReportDateTime')`. -/
def findReportDateTime (x : Xml) : Option Xml :=
  (descNamed "ReportDateTime" x).head?

/-- `root.find('.//{*}Headline/{*}Text')`: first Text child of a descendant
Headline, in ElementTree's iteration order. -/
def findHeadlineText (x : Xml) : Option Xml :=
  ((descNamed "Headline" x).flatMap (childNamed "Text")).head?

/-- `root.findall('.//{*}Item')`. -/
def findItems (x : Xml) : List Xml :=
  descNamed "Item" x

/-- `item.find('.//{*}Kind/{*}Name')`. -/
def findKindName (it : Xml) : Option Xml :=
  ((descNamed "Kind" it).flatMap (childNamed "Name")).head?

/-- The `.//{*}Areas/{*}Area` element chain of an item. -/
def areaChain (it : Xml) : List Xml :=
  (descNamed "Areas" it).flatMap (childNamed "Area")

/-- `item.find('.//{*}Areas/{*}Area/{*}Name')`, falling back to
`item.find('.//{*}Areas/{*}Area/{*}Prefecture/{*}Name')` when the former
finds no element (the fallback fires on a missing element, not on empty
text — exactly as in the source). -/
def findAreaName (it : Xml) : Option Xml :=
  match ((areaChain it).flatMap (childNamed "Name")).head? with
  | some el => some el
  | none =>
      (((areaChain it).flatMap (childNamed "Prefecture")).flatMap
        (childNamed "Name")).head?

/-- The pattern `el.text if el is not None and el.text else "N/A"`: the
sentinel is substituted when the element is absent or its text is falsy
(`None` or the empty string). -/
def textOr (o : Option Xml) : String :=
  match o with
  | some el =>
      match el.text with
      | some t => if t = "" then "N/A" else t
      | none => "N/A"
  | none => "N/A"

/-- Outcome of `datetime.fromisoformat` on a timestamp string, as the
source consumes it.  `zGood t` : string ends in `"Z"`, the rest parses, and
`.replace(tzinfo=timezone.utc)` yields the aware instant `t`.  `zBad` :
ends in `"Z"` but the rest does not parse.  `plainAware t` / `plainNaive t`
: no `"Z"` suffix, parses to an aware / naive datetime.  `bad` : does not
parse (this also covers a literal `"N/A"` text, which the fetch stage skips
explicitly and the parse stage fails to parse — same outcome). -/
inductive TimeText where
  | zGood (t : Int)
  | zBad
  | plainAware (t : Int)
  | plainNaive (t : Int)
  | bad
deriving DecidableEq

/-- The `FeedReportDateTime` value stored on an entry: `pyNone` when the
`updated` element was present but textless (Python `None`), `na` when the
element was absent (the `"N/A"` sentinel string), `txt` otherwise. -/
inductive TimeField where
  | pyNone
  | na
  | txt (t : TimeText)
deriving DecidableEq

/-- A Python datetime: timezone-aware (comparable with the aware threshold)
or naive (comparison with an aware datetime raises `TypeError`). -/
inductive PyDatetime where
  | aware (t : Int)
  | naive (t : Int)
deriving DecidableEq

/-- The datetime the timestamp-parsing block (shared shape of lines 55-60
and 107-112 of the source) produces: `none` when parsing raises or when the
field is falsy / the `"N/A"` sentinel. -/
def feedTimeOf : TimeField → Option PyDatetime
  | .txt (.zGood t) => some (.aware t)
  | .txt (.plainAware t) => some (.aware t)
  | .txt (.plainNaive t) => some (.naive t)
  | .txt .zBad => none
  | .txt .bad => none
  | .pyNone => none
  | .na => none

/-- Fetch-stage time filter (source lines 52-66): `skip_by_time` is set
only when the timestamp parses AND the comparison succeeds AND the instant
is strictly older than the threshold; any exception (parse failure, or
`TypeError` from comparing a naive datetime) is caught and leaves the flag
unset — fail open. -/
def skipByTime (tf : TimeField) (threshold : Int) : Bool :=
  match feedTimeOf tf with
  | some (.aware t) => decide (t < threshold)
  | some (.naive _) => false
  | none => false

/-- Outcome of the parse-stage re-check (source lines 105-117). -/
inductive TimeGate where
  | proceed
  | skipEntry
  | raiseTypeError
deriving DecidableEq

/-- Parse-stage time re-check: the `try` covers only the parsing, so a
parse failure yields `feed_time = None` and the entry proceeds; but the
comparison `feed_time < time_threshold` on line 116 is OUTSIDE the `try`,
so a naive datetime raises `TypeError` out of the function. -/
def parseTimeGate (tf : TimeField) (threshold : Int) : TimeGate :=
  match feedTimeOf tf with
  | some (.naive _) => .raiseTypeError
  | some (.aware t) => if t < threshold then .skipEntry else .proceed
  | none => .proceed

/-- Detail-document response bytes, as `parse_warnings_advisories` consumes
them.  `empty` : `b""` (falsy, so `if linked_bytes:` takes the else
branch).  `doc x` : the bytes decode (strictly or with lossy replacement)
and `ET.fromstring` yields the tree `x`.  `malformed` : `ET.fromstring`
raises `ET.ParseError`.  `weird` : `ET.fromstring` raises some other
exception (the source's catch-all `except Exception` branch). -/
inductive LinkedBytes where
  | empty
  | doc (x : Xml)
  | malformed
  | weird

/-- One element of `fetched["linked_entries_xml"]` (the dict built on
source lines 43-50, detail fields filled on lines 70-80).  String fields
are `Option String` because ElementTree's `.text` can be Python `None`
even when the element exists. -/
structure EntryInfo where
  EntryID : Option String
  FeedReportDateTime : TimeField
  FeedTitle : Option String
  Author : Option String
  LinkedXMLData : Option LinkedBytes
  LinkedXMLUrl : Option String
  LinkedXMLError : Option String

/-- One `entry` element of the Atom list feed, reduced to the facts
`fetch_feed` extracts: for each field, whether the element was found, and
if so its text (possibly Python `None`).  `linkHref` : presence of the
`link[@type="application/xml"]` element, and (inner) its `href` attribute
when truthy. -/
structure AtomEntry where
  idEl : Option (Option String)
  updatedEl : Option (Option TimeText)
  titleEl : Option (Option String)
  authorNameEl : Option (Option String)
  linkHref : Option (Option String)

/-- The pattern `e.find(x).text if e.find(x) is not None else "N/A"`:
absent element gives the `"N/A"` sentinel, a present element gives its text
unchanged — including Python `None` for a textless element. -/
def fieldOr (o : Option (Option String)) : Option String :=
  match o with
  | none => some "N/A"
  | some t => t

/-- Same pattern for the `updated` element, producing a `TimeField`. -/
def timeFieldOf (o : Option (Option TimeText)) : TimeField :=
  match o with
  | none => .na
  | some none => .pyNone
  | some (some t) => .txt t

/-- The network oracle: the main feed response (entry list, or the error
string of the exception raised while fetching/decoding/parsing it) and the
detail response per linked URL. -/
structure Net where
  mainFeed : Except String (List AtomEntry)
  detail : String → Except String LinkedBytes

/-- Result dict of `fetch_feed`. -/
structure Fetched where
  error : Option String
  linked_entries_xml : List EntryInfo

/-- Processing of one feed entry inside `fetch_feed`'s loop (source lines
42-81): build the metadata dict, apply the fetch-stage time filter, and
fetch the linked XML only when the link element exists, the entry was not
skipped by time, and the `href` is truthy.  On a detail-fetch exception the
data stays `None` and the error text is recorded.  The second component
counts detail network calls.  `baseEntry` is the metadata dict of lines
43-50 before the detail fields are filled. -/
def baseEntry (a : AtomEntry) : EntryInfo :=
  { EntryID := fieldOr a.idEl
    FeedReportDateTime := timeFieldOf a.updatedEl
    FeedTitle := fieldOr a.titleEl
    Author := fieldOr a.authorNameEl
    LinkedXMLData := none
    LinkedXMLUrl := none
    LinkedXMLError := none }

/-- Processing of one feed entry, continued: detail fetch decision. -/
def buildEntry (net : Net) (threshold : Int) (a : AtomEntry) : EntryInfo × Nat :=
  match a.linkHref, skipByTime (timeFieldOf a.updatedEl) threshold with
  | some (some url), false =>
      match net.detail url with
      | .ok b =>
          ({ baseEntry a with LinkedXMLData := some b, LinkedXMLUrl := some url }, 1)
      | .error e => ({ baseEntry a with LinkedXMLError := some e }, 1)
  | some (some _), true => (baseEntry a, 0)
  | some none, _ => (baseEntry a, 0)
  | none, _ => (baseEntry a, 0)

/-- `fetch_feed` (source lines 27-86) together with the number of network
calls it issues.  An exception while fetching or parsing the main feed is
caught by the outer `try` and recorded in `error`; it happens before the
loop, so the entry list is empty in that case. -/
def fetch_feedC (net : Net) (now : Int) (hours_threshold : Int) : Fetched × Nat :=
  match net.mainFeed with
  | .error e => ({ error := some e, linked_entries_xml := [] }, 1)
  | .ok atoms =>
      let built := atoms.map (buildEntry net (now - hours_threshold * 3600))
      ({ error := none, linked_entries_xml := built.map Prod.fst },
        1 + (built.map Prod.snd).sum)

/-- `fetch_feed`, result only. -/
def fetch_feed (net : Net) (now : Int) (hours_threshold : Int) : Fetched :=
  (fetch_feedC net now hours_threshold).1

/-- The fixed target category label (source line 101). -/
def targetTitle : String := "気象特別警報・警報・注意報"

/-- The `ReportDateTime` of an output row: the feed-level field unless the
detail document supplied a truthy `ReportDateTime` text (source lines
130, 140-142). -/
inductive RDT where
  | fromFeed (tf : TimeField)
  | fromDoc (s : String)
deriving DecidableEq

/-- One element of the per-entry `warnings` list. -/
structure Frag where
  Kind : String
  Area : String
  Detail : String
deriving DecidableEq

/-- Declarative form of the per-item extraction (source lines 150-161):
the fragment an item contributes, if any. -/
def itemFrag (overall : String) (it : Xml) : Option Frag :=
  let kind := textOr (findKindName it)
  let area := textOr (findAreaName it)
  if kind ≠ "N/A" ∨ area ≠ "N/A" then some ⟨kind, area, overall⟩ else none

/-- The item loop of the detail parser (source lines 144-161), translated
literally as accumulation in document order. -/
def docWarnings (x : Xml) : List Frag :=
  let overall := textOr (findHeadlineText x)
  (findItems x).foldl
    (fun acc it =>
      let kind := textOr (findKindName it)
      let area := textOr (findAreaName it)
      if kind ≠ "N/A" ∨ area ≠ "N/A" then acc ++ [⟨kind, area, overall⟩] else acc)
    []

/-- Document-level `ReportDateTime` replacement (source lines 139-142):
`if rt is not None and rt.text:` — truthy text replaces the feed value. -/
def docReportDt (tf : TimeField) (x : Xml) : RDT :=
  match findReportDateTime x with
  | some rt =>
      match rt.text with
      | some t => if t = "" then .fromFeed tf else .fromDoc t
      | none => .fromFeed tf
  | none => .fromFeed tf

/-- Python truthiness of the stored `LinkedXMLData`: `None` and `b""` are
falsy, any other bytes truthy (this is both `if linked_bytes:` on line 132
and `bool(entry.get("LinkedXMLData"))` on line 124). -/
def truthyBytes : Option LinkedBytes → Bool
  | some (.doc _) => true
  | some .malformed => true
  | some .weird => true
  | some .empty => false
  | none => false

/-- The body computing `report_dt` and `warnings` for one entry (source
lines 128-173).  The final `else` arm (`"取得失敗"`) is kept although it is
unreachable: in that branch `linked_bytes` is falsy, hence
`LinkedXMLDataPresent` is `False` and the `elif` above always fires. -/
def entryWarnings (e : EntryInfo) : RDT × List Frag :=
  let tf := e.FeedReportDateTime
  match e.LinkedXMLData with
  | some (.doc x) => (docReportDt tf x, docWarnings x)
  | some .malformed => (.fromFeed tf, [⟨"解析エラー", "解析エラー", "XML解析エラー"⟩])
  | some .weird => (.fromFeed tf, [⟨"エラー", "エラー", "不明なエラー"⟩])
  | some .empty =>
      (.fromFeed tf,
        match e.LinkedXMLError with
        | some err => [⟨"取得エラー", "取得エラー", err⟩]
        | none =>
            if truthyBytes e.LinkedXMLData = false then
              [⟨"データなし", "データなし", "時間外または取得対象外"⟩]
            else [⟨"取得失敗", "取得失敗", "リンクXMLがありません"⟩])
  | none =>
      (.fromFeed tf,
        match e.LinkedXMLError with
        | some err => [⟨"取得エラー", "取得エラー", err⟩]
        | none =>
            if truthyBytes e.LinkedXMLData = false then
              [⟨"データなし", "データなし", "時間外または取得対象外"⟩]
            else [⟨"取得失敗", "取得失敗", "リンクXMLがありません"⟩])

/-- One element of the `parsed` list (the `extracted` dict, source lines
119-126 and 178-179). -/
structure Extracted where
  EntryID : Option String
  FeedReportDateTime : TimeField
  FeedTitle : Option String
  Author : Option String
  LinkedXMLDataPresent : Bool
  LinkedXMLUrl : Option String
  ReportDateTime : RDT
  WarningsAdvisories : List Frag
deriving DecidableEq

/-- The `extracted` dict as appended to `parsed` (source lines 119-126,
178-179): entry metadata joined with the computed `report_dt` and
`warnings`. -/
def mkExtracted (e : EntryInfo) : Extracted :=
  { EntryID := e.EntryID
    FeedReportDateTime := e.FeedReportDateTime
    FeedTitle := e.FeedTitle
    Author := e.Author
    LinkedXMLDataPresent := truthyBytes e.LinkedXMLData
    LinkedXMLUrl := e.LinkedXMLUrl
    ReportDateTime := (entryWarnings e).1
    WarningsAdvisories := (entryWarnings e).2 }

/-- Processing of one entry inside the parse loop, continued: title gate,
time re-check (which can raise), warning extraction, and the top-level
double gate `if warnings and extracted["LinkedXMLDataPresent"]`. -/
def processEntry (threshold : Int) (e : EntryInfo) : Except String (Option Extracted) :=
  if e.FeedTitle = some targetTitle then
    match parseTimeGate e.FeedReportDateTime threshold with
    | .raiseTypeError =>
        .error "TypeError: cannot compare offset-naive and offset-aware datetimes"
    | .skipEntry => .ok none
    | .proceed =>
        if !(entryWarnings e).2.isEmpty && truthyBytes e.LinkedXMLData then
          .ok (some (mkExtracted e))
        else .ok none
  else .ok none

/-- The entry loop of `parse_warnings_advisories`: an uncaught exception in
any iteration aborts the whole call (the rows appended so far are lost). -/
def parseEntries (threshold : Int) : List EntryInfo → Except String (List Extracted)
  | [] => .ok []
  | e :: es =>
      match processEntry threshold e with
      | .error m => .error m
      | .ok none => parseEntries threshold es
      | .ok (some x) =>
          match parseEntries threshold es with
          | .error m => .error m
          | .ok xs => .ok (x :: xs)

/-- `parse_warnings_advisories` (source lines 88-182).  `now` is the clock
reading at the time of THIS call (line 96 recomputes the threshold). -/
def parse_warnings_advisories (fetched : Fetched) (now : Int)
    (hours_threshold : Int) : Except String (List Extracted) :=
  if fetched.linked_entries_xml.isEmpty then .ok []
  else parseEntries (now - hours_threshold * 3600) fetched.linked_entries_xml

/-- One row of the flat output table (source lines 233-241). -/
structure Record where
  ReportDateTime : RDT
  Title : Option String
  Author : Option String
  Kind : String
  Area : String
  Detail : String
  EntryID : Option String
deriving DecidableEq

/-- Pairing of one warning fragment with its parent entry's metadata. -/
def recordOf (p : Extracted) (wa : Frag) : Record :=
  { ReportDateTime := p.ReportDateTime
    Title := p.FeedTitle
    Author := p.Author
    Kind := wa.Kind
    Area := wa.Area
    Detail := wa.Detail
    EntryID := p.EntryID }

/-- The flattening loop building `transformed_data_for_db` (source lines
228-243): rows appended entry by entry, fragments in order. -/
def transformed_data_for_db (parsed : List Extracted) : List Record :=
  parsed.foldl (fun acc p => acc ++ p.WarningsAdvisories.map (recordOf p)) []

/-- The whole fetch-then-parse cycle as the script runs it (source lines
200 and 225); the two stages read the clock separately. -/
def runPipeline (net : Net) (nowFetch nowParse : Int) (hours : Int) :
    Except String (List Extracted) :=
  parse_warnings_advisories (fetch_feed net nowFetch hours) nowParse hours

/-- One stored entry of the fetch cache. -/
structure CacheEntry where
  url : String
  hours : Int
  value : Fetched
  storedAt : Int

/-- Modelled from the spec: the `@st.cache_data(ttl=600)` decorator on
`fetch_feed` (a Streamlit library feature whose code is not in this
repository) — the full fetch result is cached keyed by the argument pair
`(url, hours_threshold)` for a 600-time-unit TTL; a hit returns the stored
value with zero network calls, anything else refetches and stores. -/
def cachedFetch (cache : Option CacheEntry) (net : Net) (url : String)
    (now : Int) (hours : Int) : Fetched × Nat × Option CacheEntry :=
  match cache with
  | some ce =>
      if ce.url = url ∧ ce.hours = hours ∧ now - ce.storedAt < 600 then
        (ce.value, 0, some ce)
      else
        let fc := fetch_feedC net now hours
        (fc.1, fc.2, some ⟨url, hours, fc.1, now⟩)
  | none =>
      let fc := fetch_feedC net now hours
      (fc.1, fc.2, some ⟨url, hours, fc.1, now⟩)

/-- One cached pipeline run: fetch through the cache, then parse with the
run's own clock reading.  Returns (records, network calls, new cache). -/
def runOnce (cache : Option CacheEntry) (net : Net) (url : String)
    (now : Int) (hours : Int) :
    Except String (List Extracted) × Nat × Option CacheEntry :=
  let r := cachedFetch cache net url now hours
  (parse_warnings_advisories r.1 now hours, r.2.1, r.2.2)

/-! ## Concrete fixtures used by counterexamples and witnesses -/

/-- A headline element with text. -/
def headlineEl : Xml :=
  .node "Head" none [.node "Headline" none [.node "Text" (some "警報発表") []]]

/-- A well-formed item with kind 大雨警報 and area 東京都. -/
def itemGood : Xml :=
  .node "Item" none
    [ .node "Kind" none [.node "Name" (some "大雨警報") []]
    , .node "Areas" none [.node "Area" none [.node "Name" (some "東京都") []]] ]

/-- An item whose kind and area name texts are both the literal string
`"N/A"` — present and non-empty, yet indistinguishable from the absent
sentinel for the extraction code. -/
def itemSentinel : Xml :=
  .node "Item" none
    [ .node "Kind" none [.node "Name" (some "N/A") []]
    , .node "Areas" none [.node "Area" none [.node "Name" (some "N/A") []]] ]

/-- A well-formed detail document with a headline and one good item. -/
def docGood : Xml := .node "Report" none [headlineEl, itemGood]

/-- A well-formed detail document with no item elements at all. -/
def docNoItems : Xml := .node "Report" none [headlineEl]

/-- A well-formed detail document with two items, the second carrying
literal `"N/A"` name texts. -/
def docSentinel : Xml := .node "Report" none [headlineEl, itemGood, itemSentinel]

/-- Feed entry within the window whose detail fetch failed with a recorded
network error. -/
def eFetchErr : EntryInfo :=
  { EntryID := some "urn:e1"
    FeedReportDateTime := .txt (.zGood 999000)
    FeedTitle := some targetTitle
    Author := some "気象庁"
    LinkedXMLData := none
    LinkedXMLUrl := none
    LinkedXMLError := some "ConnectionError" }

/-- Feed entry within the window whose detail document is well-formed but
contains no items. -/
def eNoItems : EntryInfo :=
  { EntryID := some "urn:e5"
    FeedReportDateTime := .txt (.zGood 999000)
    FeedTitle := some targetTitle
    Author := some "気象庁"
    LinkedXMLData := some (.doc docNoItems)
    LinkedXMLUrl := some "https://example.invalid/d5"
    LinkedXMLError := none }

/-- Atom entry (target title, recent aware timestamp, detail link). -/
def atomOk : AtomEntry :=
  { idEl := some (some "urn:e1")
    updatedEl := some (some (.zGood 999000))
    titleEl := some (some targetTitle)
    authorNameEl := some (some "気象庁")
    linkHref := some (some "https://example.invalid/d1") }

/-- Atom entry whose `updated` string parses to a NAIVE datetime (an
ISO-8601 string without offset and without the `"Z"` suffix). -/
def atomNaive : AtomEntry :=
  { idEl := some (some "urn:e4")
    updatedEl := some (some (.plainNaive 999000))
    titleEl := some (some targetTitle)
    authorNameEl := some (some "気象庁")
    linkHref := some (some "https://example.invalid/d4") }

/-- Net whose detail fetch always fails with a network error. -/
def netFetchErr : Net :=
  { mainFeed := .ok [atomOk], detail := fun _ => .error "ConnectionError" }

/-- Net serving a good detail document to the naive-timestamp entry. -/
def netNaive : Net :=
  { mainFeed := .ok [atomNaive], detail := fun _ => .ok (.doc docGood) }

/-! ## Helper lemmas -/

/-- The item loop accumulates exactly the fragments `itemFrag` selects, in
document order. -/
theorem docWarnings_eq_filterMap (x : Xml) :
    docWarnings x = (findItems x).filterMap (itemFrag (textOr (findHeadlineText x))) := by
  unfold docWarnings
  generalize textOr (findHeadlineText x) = overall
  suffices h : ∀ (l : List Xml) (acc : List Frag),
      l.foldl
        (fun acc it =>
          let kind := textOr (findKindName it)
          let area := textOr (findAreaName it)
          if kind ≠ "N/A" ∨ area ≠ "N/A" then acc ++ [⟨kind, area, overall⟩] else acc)
        acc = acc ++ l.filterMap (itemFrag overall) by
    simpa using h (findItems x) []
  intro l
  induction l with
  | nil => intro acc; simp
  | cons it l ih =>
      intro acc
      by_cases hc : textOr (findKindName it) ≠ "N/A" ∨ textOr (findAreaName it) ≠ "N/A"
      · simp only [List.foldl_cons, List.filterMap_cons, itemFrag, if_pos hc, ih,
          List.append_assoc, List.singleton_append]
      · simp only [List.foldl_cons, List.filterMap_cons, itemFrag, if_neg hc, ih]

/-! ## Claim C1 -/

/-- C1 counterexample: a feed with one entry within the window, titled with
the target category, whose detail fetch fails with a network error.  The
error text is recorded on the entry, yet the pipeline's final result is
EMPTY — it does not contain the claimed "fetch error" record, because the
top-level gate requires `LinkedXMLDataPresent`, which is false for an entry
whose fetch failed. -/
theorem c1_fetch_error_row_absent :
    runPipeline netFetchErr 1000000 1000000 48 = .ok [] ∧
    (fetch_feed netFetchErr 1000000 48).linked_entries_xml.map
      EntryInfo.LinkedXMLError = [some "ConnectionError"] := by
  constructor
  · rfl
  · rfl

/-- C1 amended: for an entry within the window whose detail fetch failed
with a recorded network error, the parser computes exactly one fragment
with the "fetch error" sentinel kind/area and the recorded error text as
detail, but the top-level gate then discards the entry (its detail bytes
were never present), so the final result contains NO record for it. -/
theorem c1_fetch_error_fragment_computed_then_discarded
    (thr : Int) (e : EntryInfo) (err : String)
    (ht : e.FeedTitle = some targetTitle)
    (hg : parseTimeGate e.FeedReportDateTime thr = .proceed)
    (hd : e.LinkedXMLData = none)
    (he : e.LinkedXMLError = some err) :
    (entryWarnings e).2 = [⟨"取得エラー", "取得エラー", err⟩] ∧
    processEntry thr e = .ok none := by
  have hw : (entryWarnings e).2 = [⟨"取得エラー", "取得エラー", err⟩] := by
    unfold entryWarnings
    rw [hd, he]
  refine ⟨hw, ?_⟩
  unfold processEntry
  rw [ht, hg, hd]
  simp [truthyBytes, entryWarnings, he]

/-- C1 amended, witness at the concrete fetch-failed entry. -/
theorem c1_witness :
    (entryWarnings eFetchErr).2 = [⟨"取得エラー", "取得エラー", "ConnectionError"⟩] ∧
    processEntry 0 eFetchErr = .ok none :=
  c1_fetch_error_fragment_computed_then_discarded 0 eFetchErr "ConnectionError"
    rfl (by decide) rfl rfl

/-! ## Claim C3 -/

/-- C3: for an entry whose timestamp string is unparseable (with or without
the `"Z"` suffix), the fetch-stage time filter does not skip it (fail open)
and the parse-stage re-check proceeds; moreover the parse-stage re-check
excludes an entry only when its timestamp is determinate (parses to an
aware instant) and strictly older than the threshold. -/
theorem c3_unparseable_fail_open (tf : TimeField) (thr : Int)
    (h : tf = .txt .bad ∨ tf = .txt .zBad) :
    skipByTime tf thr = false ∧ parseTimeGate tf thr = .proceed ∧
    (∀ (tf' : TimeField) (thr' : Int), parseTimeGate tf' thr' = .skipEntry →
      ∃ t : Int, feedTimeOf tf' = some (.aware t) ∧ t < thr') := by
  refine ⟨?_, ?_, ?_⟩
  · rcases h with h | h <;> subst h <;> rfl
  · rcases h with h | h <;> subst h <;> rfl
  · intro tf' thr' hg
    unfold parseTimeGate at hg
    cases hft : feedTimeOf tf' with
    | none => rw [hft] at hg; simp at hg
    | some d =>
        cases d with
        | naive t => rw [hft] at hg; simp at hg
        | aware t =>
            rw [hft] at hg
            by_cases hlt : t < thr'
            · exact ⟨t, rfl, hlt⟩
            · simp [hlt] at hg

/-- C3 witness at a concrete unparseable timestamp. -/
theorem c3_witness :
    skipByTime (.txt .bad) 0 = false ∧ parseTimeGate (.txt .bad) 0 = .proceed :=
  ⟨(c3_unparseable_fail_open (.txt .bad) 0 (Or.inl rfl)).1,
   (c3_unparseable_fail_open (.txt .bad) 0 (Or.inl rfl)).2.1⟩

/-! ## Claim C4 -/

/-- C4 is violated by the code: an entry whose `updated` string is a valid
ISO-8601 timestamp WITHOUT timezone offset (e.g. "2020-01-01T00:00:00")
parses to a naive datetime at line 110 of the source, and the comparison
`feed_time < time_threshold` on line 116 sits outside the `try`, so Python
raises `TypeError` (offset-naive vs offset-aware comparison) out of
`parse_warnings_advisories` — the orchestrator does not return a list. -/
theorem c4_naive_timestamp_raises :
    runPipeline netNaive 1000000 1000000 48 =
      .error "TypeError: cannot compare offset-naive and offset-aware datetimes" := by
  rfl

/-! ## Claim C5 -/

/-- Feed entry within the window whose detail document is malformed. -/
def eMalformed : EntryInfo :=
  { EntryID := some "urn:e5m"
    FeedReportDateTime := .txt (.zGood 999000)
    FeedTitle := some targetTitle
    Author := some "気象庁"
    LinkedXMLData := some .malformed
    LinkedXMLUrl := some "https://example.invalid/d5m"
    LinkedXMLError := none }

/-- Feed entry never detail-fetched: no bytes, no recorded error. -/
def eNoData : EntryInfo :=
  { EntryID := some "urn:e5n"
    FeedReportDateTime := .txt (.zGood 999000)
    FeedTitle := some targetTitle
    Author := some "気象庁"
    LinkedXMLData := none
    LinkedXMLUrl := none
    LinkedXMLError := none }

/-- C5 counterexample: a processed entry (target title, within window,
detail bytes present and well-formed) whose document contains no items
yields NO usable per-item fragments — and NO synthetic fragment either: the
warnings list is empty and the entry is silently dropped, where the claim
demands exactly one synthetic fragment. -/
theorem c5_no_items_yields_no_synthetic :
    (entryWarnings eNoItems).2 = [] ∧
    truthyBytes eNoItems.LinkedXMLData = true ∧
    processEntry 0 eNoItems = .ok none :=
  ⟨rfl, rfl, rfl⟩

/-- C5 amended: exactly one synthetic fragment fires when detail parsing
RAISES (malformed document → "parse error"; other exception → "unknown
error") or when the bytes are absent/empty ("fetch error" with the recorded
error text, else "no data"); but a WELL-FORMED document yields exactly the
per-item fragments — possibly zero — and never a synthetic one. -/
theorem c5_synthetic_fragment_taxonomy (e : EntryInfo) :
    (e.LinkedXMLData = some .malformed →
      (entryWarnings e).2 = [⟨"解析エラー", "解析エラー", "XML解析エラー"⟩]) ∧
    (e.LinkedXMLData = some .weird →
      (entryWarnings e).2 = [⟨"エラー", "エラー", "不明なエラー"⟩]) ∧
    (e.LinkedXMLData = none →
      (∀ err : String, e.LinkedXMLError = some err →
        (entryWarnings e).2 = [⟨"取得エラー", "取得エラー", err⟩]) ∧
      (e.LinkedXMLError = none →
        (entryWarnings e).2 = [⟨"データなし", "データなし", "時間外または取得対象外"⟩])) ∧
    (e.LinkedXMLData = some .empty →
      (∀ err : String, e.LinkedXMLError = some err →
        (entryWarnings e).2 = [⟨"取得エラー", "取得エラー", err⟩]) ∧
      (e.LinkedXMLError = none →
        (entryWarnings e).2 = [⟨"データなし", "データなし", "時間外または取得対象外"⟩])) ∧
    (∀ x : Xml, e.LinkedXMLData = some (.doc x) →
      (entryWarnings e).2 =
        (findItems x).filterMap (itemFrag (textOr (findHeadlineText x)))) := by
  refine ⟨?_, ?_, ?_, ?_, ?_⟩
  · intro hd; unfold entryWarnings; rw [hd]
  · intro hd; unfold entryWarnings; rw [hd]
  · intro hd
    constructor
    · intro err he; unfold entryWarnings; rw [hd, he]
    · intro he; unfold entryWarnings; rw [hd, he]; simp [truthyBytes, hd]
  · intro hd
    constructor
    · intro err he; unfold entryWarnings; rw [hd, he]
    · intro he; unfold entryWarnings; rw [hd, he]; simp [truthyBytes, hd]
  · intro x hd
    unfold entryWarnings
    rw [hd]
    exact docWarnings_eq_filterMap x

/-- C5 amended, witness: the malformed entry gets exactly the parse-error
fragment, the fetch-failed-silently entry gets exactly the no-data
fragment. -/
theorem c5_witness :
    (entryWarnings eMalformed).2 = [⟨"解析エラー", "解析エラー", "XML解析エラー"⟩] ∧
    (entryWarnings eNoData).2 = [⟨"データなし", "データなし", "時間外または取得対象外"⟩] :=
  ⟨(c5_synthetic_fragment_taxonomy eMalformed).1 rfl,
   ((c5_synthetic_fragment_taxonomy eNoData).2.2.1 rfl).2 rfl⟩

/-! ## Claim C2 -/

/-- C2: an entry contributes a row to the parsed result only if its
warnings list is nonempty AND its detail bytes were truthy; in particular
an entry that was never detail-fetched (falsy bytes) never yields a row,
even though a synthetic fragment was computed for it. -/
theorem c2_output_double_gate (thr : Int) (e : EntryInfo) :
    (∀ x : Extracted, processEntry thr e = .ok (some x) →
      x.WarningsAdvisories ≠ [] ∧ truthyBytes e.LinkedXMLData = true) ∧
    (truthyBytes e.LinkedXMLData = false →
      ∀ x : Extracted, processEntry thr e ≠ .ok (some x)) := by
  have key : ∀ x : Extracted, processEntry thr e = .ok (some x) →
      x.WarningsAdvisories ≠ [] ∧ truthyBytes e.LinkedXMLData = true := by
    intro x hx
    unfold processEntry at hx
    split at hx
    · split at hx
      · exact absurd hx (by simp)
      · simp at hx
      · split at hx
        · rename_i hcond
          obtain ⟨h1, h2⟩ := (Bool.and_eq_true _ _).mp hcond
          have hne : (entryWarnings e).2 ≠ [] := by
            intro hnil
            rw [hnil] at h1
            simp at h1
          have hx' : mkExtracted e = x := by
            simpa using hx
          refine ⟨?_, h2⟩
          rw [← hx']
          exact hne
        · simp at hx
    · simp at hx
  refine ⟨key, ?_⟩
  intro hp x hx
  have h2 := (key x hx).2
  rw [hp] at h2
  exact Bool.false_ne_true h2

/-- Feed entry within the window with a good well-formed detail document. -/
def eDoc : EntryInfo :=
  { EntryID := some "urn:e2"
    FeedReportDateTime := .txt (.zGood 999000)
    FeedTitle := some targetTitle
    Author := some "気象庁"
    LinkedXMLData := some (.doc docGood)
    LinkedXMLUrl := some "https://example.invalid/d2"
    LinkedXMLError := none }

/-- C2 witness: the good entry does yield a row, and its row satisfies the
double gate; concretely `processEntry` returns it. -/
theorem c2_witness :
    (mkExtracted eDoc).WarningsAdvisories ≠ [] ∧
    truthyBytes eDoc.LinkedXMLData = true :=
  (c2_output_double_gate 0 eDoc).1 (mkExtracted eDoc) rfl

/-! ## Claim C6 -/

/-- C6 counterexample: a document with two items, each having a PRESENT and
NON-EMPTY kind name and area name — but the second item's names are the
literal string "N/A", indistinguishable from the absent-field sentinel, so
the parser emits only 1 fragment instead of 2. -/
theorem c6_sentinel_text_item_dropped :
    (findItems docSentinel).length = 2 ∧
    (findItems docSentinel).map
      (fun it => ((findKindName it).map Xml.text, (findAreaName it).map Xml.text)) =
      [(some (some "大雨警報"), some (some "東京都")),
       (some (some "N/A"), some (some "N/A"))] ∧
    (docWarnings docSentinel).length = 1 := by
  refine ⟨rfl, rfl, rfl⟩

/-- C6 amended: when every item's extracted kind and area both differ from
the sentinel "N/A" (in particular: present, non-empty, and not the literal
sentinel string), exactly one fragment per item is emitted and every
fragment's detail is the document-level headline text (with "N/A"
substituted when the headline is absent or empty). -/
theorem c6_all_items_emit (x : Xml)
    (h : ∀ it ∈ findItems x,
      textOr (findKindName it) ≠ "N/A" ∧ textOr (findAreaName it) ≠ "N/A") :
    (docWarnings x).length = (findItems x).length ∧
    ∀ f ∈ docWarnings x, f.Detail = textOr (findHeadlineText x) := by
  rw [docWarnings_eq_filterMap]
  suffices H : ∀ l : List Xml,
      (∀ it ∈ l, textOr (findKindName it) ≠ "N/A" ∧ textOr (findAreaName it) ≠ "N/A") →
      (l.filterMap (itemFrag (textOr (findHeadlineText x)))).length = l.length ∧
      ∀ f ∈ l.filterMap (itemFrag (textOr (findHeadlineText x))),
        f.Detail = textOr (findHeadlineText x) by
    exact H (findItems x) h
  intro l
  induction l with
  | nil => exact fun _ => ⟨rfl, by simp⟩
  | cons it l ih =>
      intro hl
      have hit := hl it (List.mem_cons_self it l)
      have hfrag : itemFrag (textOr (findHeadlineText x)) it =
          some ⟨textOr (findKindName it), textOr (findAreaName it),
                textOr (findHeadlineText x)⟩ := by
        unfold itemFrag
        rw [if_pos (Or.inl hit.1)]
      obtain ⟨ihlen, ihmem⟩ := ih (fun a ha => hl a (List.mem_cons_of_mem it ha))
      constructor
      · simp only [List.filterMap_cons, hfrag, List.length_cons, ihlen]
      · intro f hf
        rw [List.filterMap_cons, hfrag] at hf
        rcases List.mem_cons.mp hf with hfe | hfr
        · rw [hfe]
        · exact ihmem f hfr

/-- C6 amended, witness at the good single-item document. -/
theorem c6_witness :
    (docWarnings docGood).length = (findItems docGood).length :=
  (c6_all_items_emit docGood (by decide)).1

/-! ## Lemmas about the fetch and parse stages -/

/-- The metadata fields of a built entry are exactly the extracted Atom
fields, whatever the detail-fetch outcome. -/
theorem buildEntry_metadata (net : Net) (thr : Int) (a : AtomEntry) :
    ((buildEntry net thr a).1).EntryID = fieldOr a.idEl ∧
    ((buildEntry net thr a).1).FeedTitle = fieldOr a.titleEl ∧
    ((buildEntry net thr a).1).Author = fieldOr a.authorNameEl ∧
    ((buildEntry net thr a).1).FeedReportDateTime = timeFieldOf a.updatedEl := by
  unfold buildEntry
  split
  · split
    · exact ⟨rfl, rfl, rfl, rfl⟩
    · exact ⟨rfl, rfl, rfl, rfl⟩
  · exact ⟨rfl, rfl, rfl, rfl⟩
  · exact ⟨rfl, rfl, rfl, rfl⟩
  · exact ⟨rfl, rfl, rfl, rfl⟩

/-- A built entry carries truthy detail bytes only if the fetch-stage time
filter let it through. -/
theorem buildEntry_bytes_not_skipped (net : Net) (thr : Int) (a : AtomEntry)
    (h : truthyBytes ((buildEntry net thr a).1).LinkedXMLData = true) :
    skipByTime ((buildEntry net thr a).1).FeedReportDateTime thr = false := by
  have hm := (buildEntry_metadata net thr a).2.2.2
  rw [hm]
  unfold buildEntry at h
  split at h
  · rename_i url heq hskip
    exact hskip
  · rename_i heq hskip
    simp [baseEntry, truthyBytes] at h
  · rename_i heq hskip
    simp [baseEntry, truthyBytes] at h
  · rename_i heq hskip
    simp [baseEntry, truthyBytes] at h

/-- A parse-stage row comes from an entry with the target title, a
proceeding time gate and truthy bytes, and its fields are the entry's. -/
theorem processEntry_ok_some (thr : Int) (e : EntryInfo) (x : Extracted)
    (h : processEntry thr e = .ok (some x)) :
    e.FeedTitle = some targetTitle ∧
    parseTimeGate e.FeedReportDateTime thr = .proceed ∧
    truthyBytes e.LinkedXMLData = true ∧
    x = mkExtracted e := by
  unfold processEntry at h
  split at h
  · rename_i ht
    split at h
    · exact absurd h (by simp)
    · simp at h
    · rename_i hg
      split at h
      · rename_i hcond
        have hx : mkExtracted e = x := by simpa using h
        exact ⟨ht, hg, ((Bool.and_eq_true _ _).mp hcond).2, hx.symm⟩
      · simp at h
  · simp at h

/-- Every row of a successful parse run comes from some entry of the input
list. -/
theorem parseEntries_ok_mem (thr : Int) :
    ∀ (es : List EntryInfo) (ps : List Extracted), parseEntries thr es = .ok ps →
      ∀ p ∈ ps, ∃ e ∈ es, processEntry thr e = .ok (some p) := by
  intro es
  induction es with
  | nil =>
      intro ps h p hp
      unfold parseEntries at h
      injection h with h'
      subst h'
      exact absurd hp (by simp)
  | cons e es ih =>
      intro ps h p hp
      unfold parseEntries at h
      split at h
      · simp at h
      · obtain ⟨e', he', hx⟩ := ih ps h p hp
        exact ⟨e', List.mem_cons_of_mem e he', hx⟩
      · rename_i x heq
        split at h
        · simp at h
        · rename_i xs hrec
          injection h with h'
          subst h'
          rcases List.mem_cons.mp hp with hpx | hpxs
          · subst hpx
            exact ⟨e, List.mem_cons_self e es, heq⟩
          · obtain ⟨e', he', hx⟩ := ih xs hrec p hpxs
            exact ⟨e', List.mem_cons_of_mem e he', hx⟩

/-- Every entry of the fetch result is the build of some Atom entry, with
the threshold the fetch stage computed. -/
theorem fetch_feed_mem_buildEntry (net : Net) (now hours : Int) :
    ∀ e ∈ (fetch_feed net now hours).linked_entries_xml,
      ∃ a : AtomEntry, e = (buildEntry net (now - hours * 3600) a).1 := by
  intro e he
  unfold fetch_feed fetch_feedC at he
  cases hm : net.mainFeed with
  | error m =>
      rw [hm] at he
      exact absurd he (by simp)
  | ok atoms =>
      rw [hm] at he
      obtain ⟨pr, hpr, hfst⟩ := List.mem_map.mp he
      obtain ⟨a, ha, hbe⟩ := List.mem_map.mp hpr
      refine ⟨a, ?_⟩
      rw [← hfst, ← hbe]

/-! ## Claim C7 -/

/-- C7: every row of a successful pipeline run carries the target title,
passed the parse-stage time re-check, and comes from a fetched entry that
passed the fetch-stage time filter (an entry skipped at fetch time has no
bytes and is gated out, so no row can originate from it). -/
theorem c7_rows_only_from_target_entries_in_window
    (net : Net) (nowFetch nowParse hours : Int) (ps : List Extracted)
    (h : runPipeline net nowFetch nowParse hours = .ok ps) :
    ∀ p ∈ ps, p.FeedTitle = some targetTitle ∧
      parseTimeGate p.FeedReportDateTime (nowParse - hours * 3600) = .proceed ∧
      ∃ e ∈ (fetch_feed net nowFetch hours).linked_entries_xml,
        processEntry (nowParse - hours * 3600) e = .ok (some p) ∧
        skipByTime e.FeedReportDateTime (nowFetch - hours * 3600) = false := by
  intro p hp
  unfold runPipeline parse_warnings_advisories at h
  split at h
  · injection h with h'
    subst h'
    exact absurd hp (by simp)
  · obtain ⟨e, he, hpe⟩ := parseEntries_ok_mem _ _ ps h p hp
    obtain ⟨ht, hg, htr, hxe⟩ := processEntry_ok_some _ e p hpe
    obtain ⟨a, hea⟩ := fetch_feed_mem_buildEntry net nowFetch hours e he
    have hskip : skipByTime e.FeedReportDateTime (nowFetch - hours * 3600) = false := by
      rw [hea]
      refine buildEntry_bytes_not_skipped net _ a ?_
      rw [← hea]
      exact htr
    refine ⟨?_, ?_, e, he, hpe, hskip⟩
    · rw [hxe]
      exact ht
    · rw [hxe]
      exact hg

/-- Net serving the good detail document to the good Atom entry. -/
def netGood : Net :=
  { mainFeed := .ok [atomOk], detail := fun _ => .ok (.doc docGood) }

/-- The entry `fetch_feed netGood` builds from `atomOk`. -/
def eBuilt : EntryInfo :=
  { EntryID := some "urn:e1"
    FeedReportDateTime := .txt (.zGood 999000)
    FeedTitle := some targetTitle
    Author := some "気象庁"
    LinkedXMLData := some (.doc docGood)
    LinkedXMLUrl := some "https://example.invalid/d1"
    LinkedXMLError := none }

/-- C7 witness at the concrete one-entry pipeline. -/
theorem c7_witness :
    (mkExtracted eBuilt).FeedTitle = some targetTitle ∧
    parseTimeGate (mkExtracted eBuilt).FeedReportDateTime (1000000 - 48 * 3600) =
      .proceed := by
  have h := c7_rows_only_from_target_entries_in_window netGood 1000000 1000000 48
    [mkExtracted eBuilt] rfl (mkExtracted eBuilt) (by simp)
  exact ⟨h.1, h.2.1⟩

/-! ## Claim C8 -/

/-- Atom entry whose `title` element is PRESENT but empty (text `None`). -/
def atomEmptyTitle : AtomEntry :=
  { idEl := some (some "urn:e8")
    updatedEl := some (some (.zGood 0))
    titleEl := some none
    authorNameEl := none
    linkHref := none }

/-- Atom entry with every element absent. -/
def atomBare : AtomEntry :=
  { idEl := none
    updatedEl := none
    titleEl := none
    authorNameEl := none
    linkHref := none }

/-- Net serving a feed with the empty-title entry. -/
def netEmptyTitle : Net :=
  { mainFeed := .ok [atomEmptyTitle], detail := fun _ => .error "unused" }

/-- C8 counterexample: a `title` element that is present but textless is
stored as Python `None` — a null, not the "N/A" sentinel and not a string —
because the source substitutes "N/A" only when the ELEMENT is missing,
never when its `.text` is `None`. -/
theorem c8_empty_element_stored_as_null :
    (fetch_feed netEmptyTitle 0 48).linked_entries_xml.map EntryInfo.FeedTitle =
      [none] := by
  rfl

/-- C8 amended: a field whose element is ABSENT is stored as the "N/A"
sentinel (and an absent `updated` likewise); but a PRESENT element's text
is stored unchanged — including Python `None` when the element has no
text. -/
theorem c8_absent_fields_get_sentinel (net : Net) (thr : Int) (a : AtomEntry) :
    (a.idEl = none → ((buildEntry net thr a).1).EntryID = some "N/A") ∧
    (∀ t : Option String, a.idEl = some t → ((buildEntry net thr a).1).EntryID = t) ∧
    (a.titleEl = none → ((buildEntry net thr a).1).FeedTitle = some "N/A") ∧
    (∀ t : Option String, a.titleEl = some t →
      ((buildEntry net thr a).1).FeedTitle = t) ∧
    (a.authorNameEl = none → ((buildEntry net thr a).1).Author = some "N/A") ∧
    (∀ t : Option String, a.authorNameEl = some t →
      ((buildEntry net thr a).1).Author = t) ∧
    (a.updatedEl = none → ((buildEntry net thr a).1).FeedReportDateTime = .na) ∧
    (a.updatedEl = some none →
      ((buildEntry net thr a).1).FeedReportDateTime = .pyNone) := by
  obtain ⟨h1, h2, h3, h4⟩ := buildEntry_metadata net thr a
  refine ⟨?_, ?_, ?_, ?_, ?_, ?_, ?_, ?_⟩
  · intro h; rw [h1, h]; rfl
  · intro t h; rw [h1, h]; rfl
  · intro h; rw [h2, h]; rfl
  · intro t h; rw [h2, h]; rfl
  · intro h; rw [h3, h]; rfl
  · intro t h; rw [h3, h]; rfl
  · intro h; rw [h4, h]; rfl
  · intro h; rw [h4, h]; rfl

/-- C8 amended, witness at the all-absent entry. -/
theorem c8_witness :
    ((buildEntry netEmptyTitle 0 atomBare).1).EntryID = some "N/A" :=
  (c8_absent_fields_get_sentinel netEmptyTitle 0 atomBare).1 rfl

/-! ## Claim C9 -/

/-- Atom entry whose timestamp sits exactly on the first run's window
boundary. -/
def atomBoundary : AtomEntry :=
  { idEl := some (some "urn:e9")
    updatedEl := some (some (.zGood 0))
    titleEl := some (some targetTitle)
    authorNameEl := some (some "気象庁")
    linkHref := some (some "https://example.invalid/d9") }

/-- Net serving the boundary entry with a good detail document. -/
def netBoundary : Net :=
  { mainFeed := .ok [atomBoundary], detail := fun _ => .ok (.doc docGood) }

/-- The entry `fetch_feed netBoundary` builds from `atomBoundary`. -/
def e9Built : EntryInfo :=
  { EntryID := some "urn:e9"
    FeedReportDateTime := .txt (.zGood 0)
    FeedTitle := some targetTitle
    Author := some "気象庁"
    LinkedXMLData := some (.doc docGood)
    LinkedXMLUrl := some "https://example.invalid/d9"
    LinkedXMLError := none }

/-- C9 counterexample: first run at time 172800 (threshold 48h ⇒ window
start 0) returns one record for the boundary entry; the second run 100
time-units later hits the cache (ZERO network calls — that half of the
claim holds) but re-parses with the NEW clock, whose window start 100 now
excludes the entry: the second run returns an EMPTY record sequence, not an
identical one. -/
theorem c9_second_run_differs :
    (runOnce none netBoundary "extra_l.xml" 172800 48).1 =
      .ok [mkExtracted e9Built] ∧
    ([mkExtracted e9Built] : List Extracted) ≠ [] ∧
    (runOnce (runOnce none netBoundary "extra_l.xml" 172800 48).2.2 netBoundary
      "extra_l.xml" 172900 48).2.1 = 0 ∧
    (runOnce (runOnce none netBoundary "extra_l.xml" 172800 48).2.2 netBoundary
      "extra_l.xml" 172900 48).1 = .ok [] := by
  refine ⟨rfl, by simp, rfl, rfl⟩

/-- C9 amended: a second run within the TTL with the same `(url, hours)`
issues zero network calls, and returns the identical record sequence
whenever its clock reading equals the first run's (the sequences can differ
otherwise, because parsing re-reads the clock on every run). -/
theorem c9_cache_hit_zero_calls (net : Net) (url : String)
    (now1 now2 hours : Int) (h2 : now2 - now1 < 600) :
    (runOnce (runOnce none net url now1 hours).2.2 net url now2 hours).2.1 = 0 ∧
    (now2 = now1 →
      (runOnce (runOnce none net url now1 hours).2.2 net url now2 hours).1 =
        (runOnce none net url now1 hours).1) := by
  constructor
  · simp [runOnce, cachedFetch, h2]
  · intro heq
    subst heq
    simp [runOnce, cachedFetch, h2]

/-- C9 amended, witness: same clock reading on both runs. -/
theorem c9_witness :
    (runOnce (runOnce none netBoundary "u" 172800 48).2.2 netBoundary
      "u" 172800 48).2.1 = 0 ∧
    (runOnce (runOnce none netBoundary "u" 172800 48).2.2 netBoundary
      "u" 172800 48).1 = (runOnce none netBoundary "u" 172800 48).1 := by
  have h := c9_cache_hit_zero_calls netBoundary "u" 172800 172800 48 (by decide)
  exact ⟨h.1, h.2 rfl⟩

/-! ## Claim C10 -/

/-- The flattening loop equals the declarative per-row concatenation. -/
theorem transformed_eq_flatMap (ps : List Extracted) :
    transformed_data_for_db ps =
      ps.flatMap (fun p => p.WarningsAdvisories.map (recordOf p)) := by
  unfold transformed_data_for_db
  suffices h : ∀ (l : List Extracted) (acc : List Record),
      l.foldl (fun acc p => acc ++ p.WarningsAdvisories.map (recordOf p)) acc =
        acc ++ l.flatMap (fun p => p.WarningsAdvisories.map (recordOf p)) by
    simpa using h ps []
  intro l
  induction l with
  | nil => intro acc; simp
  | cons p l ih => intro acc; simp [ih]

/-- The rows one entry contributes to the flat output (empty when the entry
is skipped or gated out). -/
def entryRows (thr : Int) (e : EntryInfo) : List Record :=
  match processEntry thr e with
  | .ok (some x) => x.WarningsAdvisories.map (recordOf x)
  | .ok none => []
  | .error _ => []

/-- A successful parse run's rows are the concatenation, in input order, of
each entry's rows. -/
theorem parseEntries_rows_in_order (thr : Int) :
    ∀ (es : List EntryInfo) (ps : List Extracted), parseEntries thr es = .ok ps →
      ps.flatMap (fun p => p.WarningsAdvisories.map (recordOf p)) =
        es.flatMap (entryRows thr) := by
  intro es
  induction es with
  | nil =>
      intro ps h
      unfold parseEntries at h
      injection h with h'
      subst h'
      rfl
  | cons e es ih =>
      intro ps h
      unfold parseEntries at h
      split at h
      · simp at h
      · rename_i heq
        rw [List.flatMap_cons, show entryRows thr e = [] from by
          unfold entryRows; rw [heq]]
        rw [List.nil_append]
        exact ih ps h
      · rename_i x heq
        split at h
        · simp at h
        · rename_i xs hrec
          injection h with h'
          subst h'
          rw [List.flatMap_cons, List.flatMap_cons,
            show entryRows thr e = x.WarningsAdvisories.map (recordOf x) from by
              unfold entryRows; rw [heq]]
          rw [ih xs hrec]

/-- C10: the flat output is grouped by source entry in feed order, and
within one entry's group the fragments appear in the document order of the
item elements of its detail document. -/
theorem c10_output_order (thr : Int) (es : List EntryInfo) (ps : List Extracted)
    (h : parseEntries thr es = .ok ps) :
    transformed_data_for_db ps = es.flatMap (entryRows thr) ∧
    (∀ (e : EntryInfo) (x : Xml), e.LinkedXMLData = some (.doc x) →
      (entryWarnings e).2 =
        (findItems x).filterMap (itemFrag (textOr (findHeadlineText x)))) := by
  constructor
  · rw [transformed_eq_flatMap]
    exact parseEntries_rows_in_order thr es ps h
  · intro e x hd
    unfold entryWarnings
    rw [hd]
    exact docWarnings_eq_filterMap x

/-- C10 witness at a concrete two-entry run (one contributing, one with the
wrong title). -/
theorem c10_witness :
    transformed_data_for_db [mkExtracted eDoc] = [eDoc, eFetchErr].flatMap (entryRows 0) :=
  (c10_output_order 0 [eDoc, eFetchErr] [mkExtracted eDoc] rfl).1
